import Mathlib

/-!
Shallow embedding of the flash-loan SDK core (texture-finance/flash-loan-sdk-rust):
the fee calculator from `src/lib/src/lib.rs`, the `Reserve` account codec from
`src/lib/src/types.rs`, and the instruction codec from `src/lib/src/instruction.rs`.

Bytes are modelled as `List Nat` with each entry below 256; `u64` machine integers
become `Nat` with explicit `< 2 ^ 64` bounds where they matter.  The `math` and
`error` modules of the crate are referenced by `lib.rs` but their sources are not
part of the packaged tree, so `Decimal`/`Rate` and the error enums are modelled
from the specification (marked `Modelled from the spec:` below).
-/

namespace FlashLoanSdk

/-! ### Little-endian byte encoding helpers -/

/-- Encode `n` as `w` little-endian bytes (the semantics of Rust `to_le_bytes`
restricted to the low `w` bytes). -/
def natToLe : Nat → Nat → List Nat
  | 0, _ => []
  | w + 1, n => n % 256 :: natToLe w (n / 256)

/-- Decode a little-endian byte list back to a natural number
(the semantics of Rust `from_le_bytes`). -/
def leToNat : List Nat → Nat
  | [] => 0
  | b :: bs => b + 256 * leToNat bs

theorem natToLe_length (w n : Nat) : (natToLe w n).length = w := by
  induction w generalizing n with
  | zero => simp [natToLe]
  | succ k ih => simp [natToLe, ih]

theorem leToNat_natToLe (w n : Nat) (h : n < 256 ^ w) :
    leToNat (natToLe w n) = n := by
  induction w generalizing n with
  | zero => simp [natToLe, leToNat]; omega
  | succ k ih =>
    have hdiv : n / 256 < 256 ^ k := by
      rw [Nat.div_lt_iff_lt_mul (by omega : 0 < 256)]
      rw [Nat.pow_succ] at h; omega
    simp only [natToLe, leToNat, ih (n / 256) hdiv]
    omega

theorem take_natToLe_append (w n : Nat) (ys : List Nat) :
    (natToLe w n ++ ys).take w = natToLe w n := by
  rw [List.take_append_of_le_length (by rw [natToLe_length])]
  rw [List.take_of_length_le (by rw [natToLe_length])]

theorem drop_natToLe_append (w n : Nat) (ys : List Nat) :
    (natToLe w n ++ ys).drop w = ys := by
  rw [List.drop_append_of_le_length (by rw [natToLe_length])]
  rw [List.drop_of_length_le (by rw [natToLe_length]), List.nil_append]

/-! ### Error types

Modelled from the spec: the crate's `error` module is referenced by `lib.rs`
(`FlashSdkError`, `FlashProgramError`) but its source file is not in the packaged
tree; variants follow §7 of the specification and the uses in `lib.rs`.
`ProgramError.InvalidAccountData` embeds the solana error the codec maps all
decode failures to. -/

inductive ProgramError where
  | InvalidAccountData
  deriving DecidableEq, Repr

inductive FlashProgramError where
  | MathOverflow
  | BorrowTooSmall
  deriving DecidableEq, Repr

inductive FlashSdkError where
  | FlashError (e : FlashProgramError)
  | RpcError
  | DeserializationError
  deriving DecidableEq, Repr

/-! ### Fixed-point decimal math

Modelled from the spec: the crate's `math` module (`Decimal`, `Rate`, `TryMul`)
is used by `flash_loan_fee` but its source file is not in the packaged tree.
§4.1–§4.2 of the specification describe it: scaled integers with
SCALE = 10^18 (a wad), a wider intermediate for multiplication backed by a
192-bit integer, and half-up rounding to `u64`. -/

/-- The fixed-point scale: 10^18. -/
def WAD : Nat := 10 ^ 18

/-- Modelled from the spec: scaled-integer fraction type (§4.2); `raw` is the
value multiplied by `WAD`, backed by a machine integer. -/
structure Rate where
  raw : Nat
  deriving DecidableEq, Repr

/-- Modelled from the spec: scaled-integer decimal type (§4.1); `raw` is the
value multiplied by `WAD`, backed by a 192-bit integer. -/
structure Decimal where
  raw : Nat
  deriving DecidableEq, Repr

def Rate.zero : Rate := ⟨0⟩

/-- Modelled from the spec: wraps an already-scaled raw value with no further
scaling (§4.2). -/
def Rate.from_scaled_val (v : Nat) : Rate := ⟨v⟩

/-- Modelled from the spec: `p * SCALE / 100` (§4.2). -/
def Rate.from_percent (p : Nat) : Rate := ⟨p * WAD / 100⟩

def Decimal.zero : Decimal := ⟨0⟩

/-- Modelled from the spec: `n * SCALE` (§4.1, `from_integer`); for a `u64`
argument the product always fits the 192-bit backing integer. -/
def Decimal.from_u64 (n : Nat) : Decimal := ⟨n * WAD⟩

/-- Modelled from the spec: `(self.raw * rate.raw) / SCALE` with a wider
intermediate, failing with `MathOverflow` when the product leaves the 192-bit
backing range (§4.1, `try_mul`). -/
def Decimal.try_mul (d : Decimal) (r : Rate) : Except FlashProgramError Decimal :=
  if d.raw * r.raw < 2 ^ 192 then Except.ok ⟨d.raw * r.raw / WAD⟩
  else Except.error FlashProgramError.MathOverflow

/-- Greater of two decimals, comparing raw scaled magnitudes (§4.1, `max`). -/
def Decimal.max (a b : Decimal) : Decimal := ⟨Nat.max a.raw b.raw⟩

/-- Modelled from the spec: half-up rounding to a whole unit, failing with
`MathOverflow` when the rounded value exceeds the `u64` range (§4.1,
`try_round_to_integer`). -/
def Decimal.try_round_u64 (d : Decimal) : Except FlashProgramError Nat :=
  if (d.raw + WAD / 2) / WAD < 2 ^ 64 then Except.ok ((d.raw + WAD / 2) / WAD)
  else Except.error FlashProgramError.MathOverflow

/-! ### Reserve account state (`src/lib/src/types.rs`)

`Pubkey` values are 32-byte addresses; here a pubkey is a `Nat` below `2 ^ 256`
standing for the little-endian interpretation of its 32 bytes.  The explicit
padding arrays of the Rust structs are carried as data (as `Nat` below
`2 ^ (8 * width)`), since `bytemuck` round-trips them bit-for-bit. -/

/-- Fee information on a reserve (`ReserveFees`). -/
structure ReserveFees where
  /-- Total fee for flash loan, expressed as a Wad. -/
  flash_loan_fee_wad : Nat
  /-- Percentage of the fee going to Texture (`u8`). -/
  texture_fee_percentage : Nat
  /-- `_padding : [u8; 7]`. -/
  fees_padding : Nat
  deriving DecidableEq, Repr

/-- Reserve configuration values (`ReserveConfig`). -/
structure ReserveConfig where
  fees : ReserveFees
  deposit_limit : Nat
  fee_receiver : Nat
  /-- `_future_padding1 : [u8; 32]`. -/
  future_padding1 : Nat
  /-- `_future_padding2 : [u8; 32]`. -/
  future_padding2 : Nat
  deriving DecidableEq, Repr

/-- Reserve liquidity (`ReserveLiquidity`). -/
structure ReserveLiquidity where
  mint_pubkey : Nat
  mint_decimals : Nat
  supply_pubkey : Nat
  available_amount : Nat
  deriving DecidableEq, Repr

/-- Reserve LP tokens info (`ReserveLpTokens`). -/
structure ReserveLpTokens where
  mint_pubkey : Nat
  mint_total_supply : Nat
  supply_pubkey : Nat
  deriving DecidableEq, Repr

/-- Lending market reserve state (`Reserve`, `repr(C)`, `Pod`). -/
structure Reserve where
  version : Nat
  /-- `_padding : [u8; 7]`. -/
  head_padding : Nat
  last_update : Nat
  lending_market : Nat
  liquidity : ReserveLiquidity
  lp_tokens_info : ReserveLpTokens
  config : ReserveConfig
  /-- `_future_padding : [u64; 5]` (40 bytes). -/
  future_padding : Nat
  deriving DecidableEq, Repr

/-- `size_of::<Reserve>()`: the `repr(C)` layout has no implicit padding
(every field sits at an 8-aligned offset), so the size is the sum of the
declared field widths, 360 bytes. -/
def RESERVE_LEN : Nat :=
  1 + 7 + 8 + 32 + (32 + 8 + 32 + 8) + (32 + 8 + 32) +
    ((8 + 1 + 7) + 8 + 32 + 32 + 32) + 40

/-- Every field of the record fits its declared byte width. True of every value
that originates from Rust, where the widths are enforced by the types. -/
def ValidReserve (r : Reserve) : Prop :=
  r.version < 256 ^ 1 ∧ r.head_padding < 256 ^ 7 ∧
  r.last_update < 256 ^ 8 ∧ r.lending_market < 256 ^ 32 ∧
  r.liquidity.mint_pubkey < 256 ^ 32 ∧ r.liquidity.mint_decimals < 256 ^ 8 ∧
  r.liquidity.supply_pubkey < 256 ^ 32 ∧ r.liquidity.available_amount < 256 ^ 8 ∧
  r.lp_tokens_info.mint_pubkey < 256 ^ 32 ∧
  r.lp_tokens_info.mint_total_supply < 256 ^ 8 ∧
  r.lp_tokens_info.supply_pubkey < 256 ^ 32 ∧
  r.config.fees.flash_loan_fee_wad < 256 ^ 8 ∧
  r.config.fees.texture_fee_percentage < 256 ^ 1 ∧
  r.config.fees.fees_padding < 256 ^ 7 ∧
  r.config.deposit_limit < 256 ^ 8 ∧ r.config.fee_receiver < 256 ^ 32 ∧
  r.config.future_padding1 < 256 ^ 32 ∧ r.config.future_padding2 < 256 ^ 32 ∧
  r.future_padding < 256 ^ 40

instance (r : Reserve) : Decidable (ValidReserve r) := by
  unfold ValidReserve; infer_instance

/-- The 360 bytes of the `repr(C)` layout of `Reserve`: each field in declared
order at its declared width, little-endian (what `bytemuck::try_from_bytes_mut`
writes through `*reserve = *self`). -/
def packReserve (r : Reserve) : List Nat :=
  natToLe 1 r.version ++ natToLe 7 r.head_padding ++
  natToLe 8 r.last_update ++ natToLe 32 r.lending_market ++
  natToLe 32 r.liquidity.mint_pubkey ++ natToLe 8 r.liquidity.mint_decimals ++
  natToLe 32 r.liquidity.supply_pubkey ++ natToLe 8 r.liquidity.available_amount ++
  natToLe 32 r.lp_tokens_info.mint_pubkey ++
  natToLe 8 r.lp_tokens_info.mint_total_supply ++
  natToLe 32 r.lp_tokens_info.supply_pubkey ++
  natToLe 8 r.config.fees.flash_loan_fee_wad ++
  natToLe 1 r.config.fees.texture_fee_percentage ++
  natToLe 7 r.config.fees.fees_padding ++
  natToLe 8 r.config.deposit_limit ++ natToLe 32 r.config.fee_receiver ++
  natToLe 32 r.config.future_padding1 ++ natToLe 32 r.config.future_padding2 ++
  natToLe 40 r.future_padding

/-- `Pack::pack_into_slice` for `Reserve`: Rust writes the bytes into `output`
and PANICS (`.expect`) when `bytemuck::try_from_bytes_mut` rejects the slice,
i.e. when `output.len() != size_of::<Reserve>()`.  The partiality of the Rust
function is modelled with `Option`: `none` is the panic. -/
def pack_into_slice (r : Reserve) (output : List Nat) : Option (List Nat) :=
  if output.length = RESERVE_LEN then some (packReserve r) else none

/-- `Pack::unpack_from_slice` for `Reserve`: `bytemuck::try_from_bytes` checks
the exact length and reinterprets the buffer positionally; every failure is
mapped to `ProgramError::InvalidAccountData`. -/
def unpack_from_slice (input : List Nat) : Except ProgramError Reserve :=
  if input.length = RESERVE_LEN then
    let version := leToNat (input.take 1)
    let bs1 := input.drop 1
    let head_padding := leToNat (bs1.take 7)
    let bs2 := bs1.drop 7
    let last_update := leToNat (bs2.take 8)
    let bs3 := bs2.drop 8
    let lending_market := leToNat (bs3.take 32)
    let bs4 := bs3.drop 32
    let liq_mint := leToNat (bs4.take 32)
    let bs5 := bs4.drop 32
    let liq_decimals := leToNat (bs5.take 8)
    let bs6 := bs5.drop 8
    let liq_supply := leToNat (bs6.take 32)
    let bs7 := bs6.drop 32
    let liq_available := leToNat (bs7.take 8)
    let bs8 := bs7.drop 8
    let lp_mint := leToNat (bs8.take 32)
    let bs9 := bs8.drop 32
    let lp_total := leToNat (bs9.take 8)
    let bs10 := bs9.drop 8
    let lp_supply := leToNat (bs10.take 32)
    let bs11 := bs10.drop 32
    let fee_wad := leToNat (bs11.take 8)
    let bs12 := bs11.drop 8
    let fee_pct := leToNat (bs12.take 1)
    let bs13 := bs12.drop 1
    let fee_pad := leToNat (bs13.take 7)
    let bs14 := bs13.drop 7
    let deposit_limit := leToNat (bs14.take 8)
    let bs15 := bs14.drop 8
    let fee_receiver := leToNat (bs15.take 32)
    let bs16 := bs15.drop 32
    let fpad1 := leToNat (bs16.take 32)
    let bs17 := bs16.drop 32
    let fpad2 := leToNat (bs17.take 32)
    let bs18 := bs17.drop 32
    let future := leToNat (bs18.take 40)
    Except.ok
      { version := version, head_padding := head_padding,
        last_update := last_update, lending_market := lending_market,
        liquidity :=
          { mint_pubkey := liq_mint, mint_decimals := liq_decimals,
            supply_pubkey := liq_supply, available_amount := liq_available },
        lp_tokens_info :=
          { mint_pubkey := lp_mint, mint_total_supply := lp_total,
            supply_pubkey := lp_supply },
        config :=
          { fees :=
              { flash_loan_fee_wad := fee_wad,
                texture_fee_percentage := fee_pct, fees_padding := fee_pad },
            deposit_limit := deposit_limit, fee_receiver := fee_receiver,
            future_padding1 := fpad1, future_padding2 := fpad2 },
        future_padding := future }
  else
    Except.error ProgramError.InvalidAccountData

/-- `IsInitialized::is_initialized` for `Reserve`. -/
def Reserve.is_initialized (r : Reserve) : Bool := r.version != 0

theorem packReserve_length (r : Reserve) : (packReserve r).length = RESERVE_LEN := by
  simp [packReserve, natToLe_length, RESERVE_LEN]

theorem take_natToLe (w n : Nat) : (natToLe w n).take w = natToLe w n :=
  List.take_of_length_le (by rw [natToLe_length])

theorem unpack_packReserve (r : Reserve) (h : ValidReserve r) :
    unpack_from_slice (packReserve r) = Except.ok r := by
  have hlen := packReserve_length r
  rw [unpack_from_slice, if_pos hlen]
  obtain ⟨v, p0, lu, lm, ⟨a1, a2, a3, a4⟩, ⟨b1, b2, b3⟩,
    ⟨⟨c1, c2, c3⟩, c4, c5, c6, c7⟩, fut⟩ := r
  obtain ⟨hv, hp0, hlu, hlm, ha1, ha2, ha3, ha4, hb1, hb2, hb3,
    hc1, hc2, hc3, hc4, hc5, hc6, hc7, hfut⟩ := h
  simp only [packReserve, List.append_assoc,
    take_natToLe_append, drop_natToLe_append, take_natToLe,
    leToNat_natToLe 1 v hv, leToNat_natToLe 7 p0 hp0,
    leToNat_natToLe 8 lu hlu, leToNat_natToLe 32 lm hlm,
    leToNat_natToLe 32 a1 ha1, leToNat_natToLe 8 a2 ha2,
    leToNat_natToLe 32 a3 ha3, leToNat_natToLe 8 a4 ha4,
    leToNat_natToLe 32 b1 hb1, leToNat_natToLe 8 b2 hb2,
    leToNat_natToLe 32 b3 hb3, leToNat_natToLe 8 c1 hc1,
    leToNat_natToLe 1 c2 hc2, leToNat_natToLe 7 c3 hc3,
    leToNat_natToLe 8 c4 hc4, leToNat_natToLe 32 c5 hc5,
    leToNat_natToLe 32 c6 hc6, leToNat_natToLe 32 c7 hc7,
    leToNat_natToLe 40 fut hfut]

/-! ### Fee calculator (`src/lib/src/lib.rs`) -/

/-- `flash_loan_fee` from `lib.rs`: total fee for a flash borrow of
`borrow_amount` from `reserve`.  The comparisons `> Rate::zero()`,
`> Decimal::zero()` and `>= borrow_amount` compare raw scaled magnitudes;
both error sites map the inner math error to `MathOverflow` via `map_err`. -/
def flash_loan_fee (reserve : Reserve) (borrow_amount : Nat) :
    Except FlashSdkError Nat :=
  let borrow_fee_rate := Rate.from_scaled_val reserve.config.fees.flash_loan_fee_wad
  let texture_fee_rate := Rate.from_percent reserve.config.fees.texture_fee_percentage
  let amount := Decimal.from_u64 borrow_amount
  if Rate.zero.raw < borrow_fee_rate.raw ∧ Decimal.zero.raw < amount.raw then
    let minimum_fee : Nat := if Rate.zero.raw < texture_fee_rate.raw then 2 else 1
    match amount.try_mul borrow_fee_rate with
    | Except.error _ =>
        Except.error (FlashSdkError.FlashError FlashProgramError.MathOverflow)
    | Except.ok borrow_fee_amount =>
        let borrow_fee_decimal := borrow_fee_amount.max (Decimal.from_u64 minimum_fee)
        if amount.raw ≤ borrow_fee_decimal.raw then
          Except.error (FlashSdkError.FlashError FlashProgramError.BorrowTooSmall)
        else
          match borrow_fee_decimal.try_round_u64 with
          | Except.error _ =>
              Except.error (FlashSdkError.FlashError FlashProgramError.MathOverflow)
          | Except.ok fee => Except.ok fee
  else
    Except.ok 0

/-- The minimum fee chosen inside `flash_loan_fee`: 2 when the texture (partner)
percentage is nonzero, else 1. -/
def minimum_fee_of (reserve : Reserve) : Nat :=
  if 0 < reserve.config.fees.texture_fee_percentage then 2 else 1

/-- The raw scaled value of `borrow_fee_decimal` inside `flash_loan_fee`:
`max(amount * rate, minimum_fee)` in wads. -/
def fee_decimal_raw (reserve : Reserve) (borrow_amount : Nat) : Nat :=
  Nat.max (borrow_amount * reserve.config.fees.flash_loan_fee_wad)
    (minimum_fee_of reserve * WAD)

theorem WAD_pos : 0 < WAD := by norm_num [WAD]

theorem from_percent_pos (p : Nat) : 0 < p * WAD / 100 ↔ 0 < p := by
  constructor
  · intro h
    rcases Nat.eq_zero_or_pos p with hp | hp
    · simp [hp] at h
    · exact hp
  · intro hp
    have h100 : (100 : Nat) ≤ p * WAD := by
      calc (100 : Nat) ≤ WAD := by norm_num [WAD]
      _ = 1 * WAD := (Nat.one_mul WAD).symm
      _ ≤ p * WAD := Nat.mul_le_mul_right WAD hp
    exact Nat.div_pos h100 (by norm_num)

theorem amount_mul_rate_div_wad (a R : Nat) : a * WAD * R / WAD = a * R := by
  rw [Nat.mul_right_comm, Nat.mul_div_cancel _ WAD_pos]

/-- In the nonzero branch, `flash_loan_fee` reduces to the `BorrowTooSmall`
check and half-up rounding of `fee_decimal_raw`; the width bounds make the
192-bit intermediate product and the `u64` rounding overflow checks pass. -/
theorem flash_loan_fee_main (res : Reserve) (a : Nat)
    (hR : 0 < res.config.fees.flash_loan_fee_wad) (ha : 0 < a)
    (hR64 : res.config.fees.flash_loan_fee_wad < 2 ^ 64) (ha64 : a < 2 ^ 64) :
    flash_loan_fee res a =
      if a * WAD ≤ fee_decimal_raw res a then
        Except.error (FlashSdkError.FlashError FlashProgramError.BorrowTooSmall)
      else Except.ok ((fee_decimal_raw res a + WAD / 2) / WAD) := by
  have hWAD := WAD_pos
  have hprod : a * WAD * res.config.fees.flash_loan_fee_wad < 2 ^ 192 := by
    calc a * WAD * res.config.fees.flash_loan_fee_wad
        ≤ a * WAD * 2 ^ 64 := Nat.mul_le_mul_left _ (Nat.le_of_lt hR64)
      _ ≤ 2 ^ 64 * WAD * 2 ^ 64 :=
          Nat.mul_le_mul_right _ (Nat.mul_le_mul_right WAD (Nat.le_of_lt ha64))
      _ < 2 ^ 192 := by norm_num [WAD]
  unfold flash_loan_fee
  simp only [Rate.from_scaled_val, Rate.from_percent, Rate.zero, Decimal.from_u64,
    Decimal.zero, Decimal.try_mul]
  rw [if_pos ⟨hR, Nat.mul_pos ha hWAD⟩, if_pos hprod]
  simp only [amount_mul_rate_div_wad]
  have hmf : (if 0 < res.config.fees.texture_fee_percentage * WAD / 100 then 2 else 1)
      = minimum_fee_of res := by
    rw [minimum_fee_of]; exact if_congr (from_percent_pos _) rfl rfl
  have hmax : ({ raw := a * res.config.fees.flash_loan_fee_wad } : Decimal).max
      ⟨(if 0 < res.config.fees.texture_fee_percentage * WAD / 100 then 2 else 1) * WAD⟩
      = ({ raw := fee_decimal_raw res a } : Decimal) := by
    rw [hmf]; rfl
  rw [hmax]
  by_cases hbs : a * WAD ≤ fee_decimal_raw res a
  · rw [if_pos hbs, if_pos hbs]
  · rw [if_neg hbs, if_neg hbs]
    have hlt : fee_decimal_raw res a < a * WAD := Nat.lt_of_not_le hbs
    have hround : (fee_decimal_raw res a + WAD / 2) / WAD < 2 ^ 64 := by
      have hlt2 : fee_decimal_raw res a + WAD / 2 < (a + 1) * WAD := by
        have h2 : WAD / 2 < WAD := Nat.div_lt_self hWAD (by norm_num)
        calc fee_decimal_raw res a + WAD / 2 < a * WAD + WAD := by omega
          _ = (a + 1) * WAD := by ring
      have := (Nat.div_lt_iff_lt_mul hWAD).mpr hlt2
      omega
    have hru : ({ raw := fee_decimal_raw res a } : Decimal).try_round_u64
        = Except.ok ((fee_decimal_raw res a + WAD / 2) / WAD) := by
      simp only [Decimal.try_round_u64]
      rw [if_pos hround]
    rw [hru]

/-- Inversion: a successful `flash_loan_fee` call either took the zero branch
(zero rate or zero amount) or passed the `BorrowTooSmall` check and returned
the half-up rounding of `fee_decimal_raw`. -/
theorem flash_loan_fee_ok_inversion (res : Reserve) (a fee : Nat)
    (h : flash_loan_fee res a = Except.ok fee) :
    (¬(0 < res.config.fees.flash_loan_fee_wad ∧ 0 < a) ∧ fee = 0) ∨
    (0 < res.config.fees.flash_loan_fee_wad ∧ 0 < a ∧
      fee_decimal_raw res a < a * WAD ∧
      fee = (fee_decimal_raw res a + WAD / 2) / WAD) := by
  have hWAD := WAD_pos
  unfold flash_loan_fee at h
  simp only [Rate.from_scaled_val, Rate.from_percent, Rate.zero, Decimal.from_u64,
    Decimal.zero, Decimal.try_mul] at h
  by_cases hc : 0 < res.config.fees.flash_loan_fee_wad ∧ 0 < a
  · obtain ⟨hR, ha⟩ := hc
    rw [if_pos ⟨hR, Nat.mul_pos ha hWAD⟩] at h
    by_cases hprod : a * WAD * res.config.fees.flash_loan_fee_wad < 2 ^ 192
    · rw [if_pos hprod] at h
      simp only [amount_mul_rate_div_wad] at h
      have hmf : (if 0 < res.config.fees.texture_fee_percentage * WAD / 100 then 2 else 1)
          = minimum_fee_of res := by
        rw [minimum_fee_of]; exact if_congr (from_percent_pos _) rfl rfl
      have hmax : ({ raw := a * res.config.fees.flash_loan_fee_wad } : Decimal).max
          ⟨(if 0 < res.config.fees.texture_fee_percentage * WAD / 100 then 2 else 1) * WAD⟩
          = ({ raw := fee_decimal_raw res a } : Decimal) := by
        rw [hmf]; rfl
      rw [hmax] at h
      by_cases hbs : a * WAD ≤ fee_decimal_raw res a
      · rw [if_pos hbs] at h
        simp at h
      · rw [if_neg hbs] at h
        by_cases hround : (fee_decimal_raw res a + WAD / 2) / WAD < 2 ^ 64
        · have hru : ({ raw := fee_decimal_raw res a } : Decimal).try_round_u64
              = Except.ok ((fee_decimal_raw res a + WAD / 2) / WAD) := by
            simp only [Decimal.try_round_u64]
            rw [if_pos hround]
          rw [hru] at h
          simp only [Except.ok.injEq] at h
          exact Or.inr ⟨hR, ha, Nat.lt_of_not_le hbs, h.symm⟩
        · have hru : ({ raw := fee_decimal_raw res a } : Decimal).try_round_u64
              = Except.error FlashProgramError.MathOverflow := by
            simp only [Decimal.try_round_u64]
            rw [if_neg hround]
          rw [hru] at h
          simp at h
    · rw [if_neg hprod] at h
      simp at h
  · have hc2 : ¬(0 < res.config.fees.flash_loan_fee_wad ∧ 0 < a * WAD) := by
      intro hpair
      exact hc ⟨hpair.1, by
        rcases Nat.eq_zero_or_pos a with ha0 | hap
        · rw [ha0] at hpair; simp at hpair
        · exact hap⟩
    rw [if_neg hc2] at h
    simp only [Except.ok.injEq] at h
    exact Or.inl ⟨hc, h.symm⟩

/-- Every error `flash_loan_fee` can return is a typed `FlashError`
(`MathOverflow` or `BorrowTooSmall`). -/
theorem flash_loan_fee_error_shape (res : Reserve) (a : Nat) (e : FlashSdkError)
    (h : flash_loan_fee res a = Except.error e) :
    e = FlashSdkError.FlashError FlashProgramError.MathOverflow ∨
    e = FlashSdkError.FlashError FlashProgramError.BorrowTooSmall := by
  unfold flash_loan_fee at h
  simp only [Rate.from_scaled_val, Rate.from_percent, Rate.zero, Decimal.from_u64,
    Decimal.zero, Decimal.try_mul] at h
  split at h
  all_goals try split at h
  all_goals try split at h
  all_goals try split at h
  all_goals try split at h
  all_goals first
    | (injection h with h2; simp [← h2])
    | injection h

/-- `available_liquidity` from `lib.rs`. -/
def available_liquidity (reserve : Reserve) : Nat :=
  reserve.liquidity.available_amount

/-- Half-up rounding of a wad value strictly below `a` wads gives at most `a`. -/
theorem round_le (fd a : Nat) (h : fd < a * WAD) : (fd + WAD / 2) / WAD ≤ a := by
  have hWAD := WAD_pos
  have h2 : WAD / 2 < WAD := Nat.div_lt_self hWAD (by norm_num)
  have hlt2 : fd + WAD / 2 < (a + 1) * WAD := by
    calc fd + WAD / 2 < a * WAD + WAD := by omega
      _ = (a + 1) * WAD := by ring
  have := (Nat.div_lt_iff_lt_mul hWAD).mpr hlt2
  omega

/-- Half-up rounding of a wad value that is at least `m` wads gives at
least `m`. -/
theorem round_ge (m fd : Nat) (h : m * WAD ≤ fd) : m ≤ (fd + WAD / 2) / WAD := by
  have hWAD := WAD_pos
  calc m = m * WAD / WAD := (Nat.mul_div_cancel _ hWAD).symm
    _ ≤ (fd + WAD / 2) / WAD := Nat.div_le_div_right (by omega)

/-- A reserve whose fee configuration carries the given wad rate and texture
percentage and whose other fields are zero except `version = 1`; used to
instantiate universally quantified statements at concrete inputs. -/
def mkReserve (wad pct : Nat) : Reserve :=
  { version := 1, head_padding := 0, last_update := 0, lending_market := 0,
    liquidity := ⟨0, 0, 0, 0⟩, lp_tokens_info := ⟨0, 0, 0⟩,
    config :=
      { fees := ⟨wad, pct, 0⟩,
        deposit_limit := 0, fee_receiver := 0,
        future_padding1 := 0, future_padding2 := 0 },
    future_padding := 0 }

/-! ### Instruction codec (`src/lib/src/instruction.rs`) -/

/-- Instructions supported by the Flash Loan program (`FlashLoanInstruction`). -/
inductive FlashLoanInstruction where
  | FlashLoan (amount : Nat) (receive_flash_loan_instruction_tag : Nat)
  | FlashBorrow (amount : Nat)
  | FlashRepay (amount : Nat)
  deriving DecidableEq, Repr

/-- `FlashLoanInstruction::pack`: opcode byte, then the fixed-width
little-endian payload fields pushed in order. -/
def FlashLoanInstruction.pack : FlashLoanInstruction → List Nat
  | FlashLoan amount tag => 5 :: (natToLe 8 amount ++ natToLe 1 tag)
  | FlashBorrow amount => 7 :: natToLe 8 amount
  | FlashRepay amount => 8 :: natToLe 8 amount

/-- `solana_program::instruction::AccountMeta`; the pubkey is a `Nat` as in
`Reserve`. -/
structure AccountMeta where
  pubkey : Nat
  is_signer : Bool
  is_writable : Bool
  deriving DecidableEq, Repr

/-- `AccountMeta::new`: writable account reference. -/
def AccountMeta.new (pubkey : Nat) (is_signer : Bool) : AccountMeta :=
  ⟨pubkey, is_signer, true⟩

/-- `AccountMeta::new_readonly`: read-only account reference. -/
def AccountMeta.new_readonly (pubkey : Nat) (is_signer : Bool) : AccountMeta :=
  ⟨pubkey, is_signer, false⟩

/-- `solana_program::instruction::Instruction`. -/
structure Instruction where
  program_id : Nat
  accounts : List AccountMeta
  data : List Nat
  deriving DecidableEq, Repr

/-- Creates a `FlashBorrow` instruction (`flash_borrow` builder).
`find_program_address` abstracts the SHA-256 based
`Pubkey::find_program_address(&[market bytes], &program_id)` of the ledger SDK,
and `sysvar_instructions_id`/`spl_token_id` the two well-known external program
addresses; the builder's output is uniform in all three. -/
def flash_borrow (find_program_address : Nat → Nat → Nat)
    (sysvar_instructions_id spl_token_id : Nat)
    (program_id amount source_liquidity_pubkey destination_liquidity_pubkey
      reserve_pubkey lending_market_pubkey : Nat) : Instruction :=
  let lending_market_authority_pubkey :=
    find_program_address lending_market_pubkey program_id
  { program_id := program_id,
    accounts :=
      [AccountMeta.new source_liquidity_pubkey false,
       AccountMeta.new destination_liquidity_pubkey false,
       AccountMeta.new reserve_pubkey false,
       AccountMeta.new_readonly lending_market_pubkey false,
       AccountMeta.new_readonly lending_market_authority_pubkey false,
       AccountMeta.new_readonly sysvar_instructions_id false,
       AccountMeta.new_readonly spl_token_id false],
    data := (FlashLoanInstruction.FlashBorrow amount).pack }

/-- Creates a `FlashRepay` instruction (`flash_repay` builder). -/
def flash_repay (sysvar_instructions_id spl_token_id : Nat)
    (program_id amount source_liquidity_pubkey destination_liquidity_pubkey
      reserve_liquidity_fee_receiver_pubkey reserve_pubkey
      lending_market_pubkey user_transfer_authority_pubkey : Nat) : Instruction :=
  { program_id := program_id,
    accounts :=
      [AccountMeta.new source_liquidity_pubkey false,
       AccountMeta.new destination_liquidity_pubkey false,
       AccountMeta.new reserve_liquidity_fee_receiver_pubkey false,
       AccountMeta.new reserve_pubkey false,
       AccountMeta.new_readonly lending_market_pubkey false,
       AccountMeta.new_readonly user_transfer_authority_pubkey true,
       AccountMeta.new_readonly sysvar_instructions_id false,
       AccountMeta.new_readonly spl_token_id false],
    data := (FlashLoanInstruction.FlashRepay amount).pack }

/-- Creates a `FlashLoan` instruction (`flash_loan` builder). -/
def flash_loan (find_program_address : Nat → Nat → Nat) (spl_token_id : Nat)
    (program_id amount receive_flash_loan_instruction_tag
      source_liquidity_pubkey destination_liquidity_pubkey reserve_pubkey
      reserve_liquidity_fee_receiver_pubkey lending_market_pubkey
      flash_loan_receiver_program_id : Nat)
    (flash_loan_receiver_program_accounts : List AccountMeta) : Instruction :=
  let lending_market_authority_pubkey :=
    find_program_address lending_market_pubkey program_id
  { program_id := program_id,
    accounts :=
      [AccountMeta.new source_liquidity_pubkey false,
       AccountMeta.new destination_liquidity_pubkey false,
       AccountMeta.new reserve_pubkey false,
       AccountMeta.new reserve_liquidity_fee_receiver_pubkey false,
       AccountMeta.new_readonly lending_market_pubkey false,
       AccountMeta.new_readonly lending_market_authority_pubkey false,
       AccountMeta.new_readonly spl_token_id false,
       AccountMeta.new_readonly flash_loan_receiver_program_id false] ++
        flash_loan_receiver_program_accounts,
    data := (FlashLoanInstruction.FlashLoan amount
      receive_flash_loan_instruction_tag).pack }

/-! ### Claim theorems -/

/-- C5: `flash_loan_fee` returns `Ok(0)` whenever the configured
`flash_loan_fee_wad` is zero (for every borrow amount), and whenever the
borrow amount is zero (for every rate); in these cases it never errors. -/
theorem claim_C5 (res : Reserve) (a : Nat) :
    (res.config.fees.flash_loan_fee_wad = 0 → flash_loan_fee res a = Except.ok 0) ∧
    (a = 0 → flash_loan_fee res a = Except.ok 0) := by
  constructor
  · intro h0
    simp only [flash_loan_fee, Rate.from_scaled_val, Rate.from_percent, Rate.zero,
      Decimal.from_u64, Decimal.zero, Decimal.try_mul]
    rw [if_neg (by rw [h0]; simp)]
  · intro h0
    simp only [flash_loan_fee, Rate.from_scaled_val, Rate.from_percent, Rate.zero,
      Decimal.from_u64, Decimal.zero, Decimal.try_mul]
    rw [if_neg (by rw [h0]; simp)]

/-- C5 witness: at the concrete inputs, a zero rate and a zero amount each
give a zero fee. -/
theorem claim_C5_witness :
    flash_loan_fee (mkReserve 0 7) 1000000 = Except.ok 0 ∧
    flash_loan_fee (mkReserve 3000000000000000 7) 0 = Except.ok 0 :=
  ⟨(claim_C5 (mkReserve 0 7) 1000000).1 rfl,
   (claim_C5 (mkReserve 3000000000000000 7) 0).2 rfl⟩

/-- C7: for a fixed configuration with a nonzero fee rate, the fee is monotone
in the borrow amount: whenever both calls succeed and `a ≤ b`, the fee for `a`
is at most the fee for `b`. -/
theorem claim_C7 (res : Reserve) (a b fa fb : Nat)
    (hR : 0 < res.config.fees.flash_loan_fee_wad) (hab : a ≤ b)
    (ha : flash_loan_fee res a = Except.ok fa)
    (hb : flash_loan_fee res b = Except.ok fb) : fa ≤ fb := by
  rcases flash_loan_fee_ok_inversion res a fa ha with ⟨_, hfa0⟩ | ⟨_, hapos, hlta, hfa⟩
  · rw [hfa0]; exact Nat.zero_le _
  · rcases flash_loan_fee_ok_inversion res b fb hb with ⟨hnb, _⟩ | ⟨_, _, _, hfb⟩
    · exact absurd ⟨hR, Nat.lt_of_lt_of_le hapos hab⟩ hnb
    · rw [hfa, hfb]
      have hfd : fee_decimal_raw res a ≤ fee_decimal_raw res b := by
        unfold fee_decimal_raw
        exact max_le_max (Nat.mul_le_mul_right _ hab) (Nat.le_refl _)
      exact Nat.div_le_div_right (by omega)

/-- C7 witness: with a 0.3% rate, the fee at amount 1,000,000 is at most the
fee at amount 2,000,000. -/
theorem claim_C7_witness : (3000 : Nat) ≤ 6000 :=
  claim_C7 (mkReserve 3000000000000000 0) 1000000 2000000 3000 6000
    (by decide) (by decide) rfl rfl

/-- C10: a successful call with nonzero rate and nonzero amount never returns
a zero fee: the fee is at least 1, and at least 2 when the texture (partner)
percentage is nonzero. -/
theorem claim_C10 (res : Reserve) (a fee : Nat)
    (hR : 0 < res.config.fees.flash_loan_fee_wad) (ha : 0 < a)
    (h : flash_loan_fee res a = Except.ok fee) :
    1 ≤ fee ∧ (0 < res.config.fees.texture_fee_percentage → 2 ≤ fee) := by
  rcases flash_loan_fee_ok_inversion res a fee h with ⟨hn, _⟩ | ⟨_, _, _, hfee⟩
  · exact absurd ⟨hR, ha⟩ hn
  · have hm : minimum_fee_of res * WAD ≤ fee_decimal_raw res a :=
      Nat.le_max_right _ _
    have hge := round_ge (minimum_fee_of res) _ hm
    rw [hfee]
    constructor
    · have h1 : 1 ≤ minimum_fee_of res := by
        unfold minimum_fee_of; split <;> omega
      omega
    · intro hpct
      have h2 : minimum_fee_of res = 2 := by
        unfold minimum_fee_of; rw [if_pos hpct]
      omega

/-- C10 witness: 0.3% rate with a 10% texture share on amount 1,000,000 gives
fee 3000, which is at least 1 and at least 2. -/
theorem claim_C10_witness : (1 : Nat) ≤ 3000 ∧ (0 < 10 → (2 : Nat) ≤ 3000) :=
  claim_C10 (mkReserve 3000000000000000 10) 1000000 3000
    (by decide) (by decide) rfl

/-- C1 counterexample: with fee rate `WAD - 1` (just under 100%) and borrow
amount 2, `flash_loan_fee` succeeds with fee 2, which is NOT strictly less
than the borrow amount: half-up rounding of the fee decimal
`1.999999999999999998` reaches the amount itself. -/
theorem claim_C1_cex :
    flash_loan_fee (mkReserve 999999999999999999 0) 2 = Except.ok 2 ∧ ¬(2 < 2) :=
  ⟨rfl, by decide⟩

/-- C1 (amended): whenever `flash_loan_fee` succeeds the returned fee is at
most (not strictly less than) the borrow amount, and whenever the computed fee
decimal is not strictly below the borrow amount decimal the call fails with
`BorrowTooSmall`. -/
theorem claim_C1 (res : Reserve) (a fee : Nat)
    (hR64 : res.config.fees.flash_loan_fee_wad < 2 ^ 64) (ha64 : a < 2 ^ 64) :
    (flash_loan_fee res a = Except.ok fee → fee ≤ a) ∧
    (0 < res.config.fees.flash_loan_fee_wad → 0 < a →
      a * WAD ≤ fee_decimal_raw res a →
      flash_loan_fee res a =
        Except.error (FlashSdkError.FlashError FlashProgramError.BorrowTooSmall)) := by
  constructor
  · intro h
    rcases flash_loan_fee_ok_inversion res a fee h with ⟨_, hf0⟩ | ⟨_, _, hlt, hfee⟩
    · omega
    · rw [hfee]; exact round_le _ _ hlt
  · intro hR ha hbs
    rw [flash_loan_fee_main res a hR ha hR64 ha64, if_pos hbs]

/-- C1 witness: with a 100% rate and amount 5 the fee decimal equals the
amount, so the call fails `BorrowTooSmall`. -/
theorem claim_C1_witness :
    flash_loan_fee (mkReserve 1000000000000000000 0) 5 =
      Except.error (FlashSdkError.FlashError FlashProgramError.BorrowTooSmall) :=
  (claim_C1 (mkReserve 1000000000000000000 0) 5 0 (by decide) (by decide)).2
    (by decide) (by decide) (by decide)

/-- C6 counterexample: with a nonzero rate, a nonzero texture percentage and
borrow amount 0 (whose rate-derived fee rounds to 0, i.e. to less than 2),
`flash_loan_fee` returns `Ok(0)`: it neither returns 2 nor fails
`BorrowTooSmall` as the claim demands for every such amount. -/
theorem claim_C6_cex :
    0 < (10 : Nat) ∧ (0 * 3000000000000000 + WAD / 2) / WAD < 2 ∧
    flash_loan_fee (mkReserve 3000000000000000 10) 0 = Except.ok 0 ∧
    (Except.ok (0 : Nat) : Except FlashSdkError Nat) ≠ Except.ok 2 ∧
    (Except.ok (0 : Nat) : Except FlashSdkError Nat) ≠
      Except.error (FlashSdkError.FlashError FlashProgramError.BorrowTooSmall) :=
  ⟨by decide, by decide, rfl, by simp, by simp⟩

/-- C6 (amended): for a NONZERO borrow amount whose rate-derived fee rounds to
less than 2, a nonzero rate and a nonzero texture percentage give fee exactly 2
(or `BorrowTooSmall` exactly when 2 is not strictly below the amount); with a
zero texture percentage the floor is 1 instead of 2. -/
theorem claim_C6 (res : Reserve) (a : Nat)
    (hR : 0 < res.config.fees.flash_loan_fee_wad) (ha : 0 < a)
    (hR64 : res.config.fees.flash_loan_fee_wad < 2 ^ 64) (ha64 : a < 2 ^ 64) :
    (0 < res.config.fees.texture_fee_percentage →
      (a * res.config.fees.flash_loan_fee_wad + WAD / 2) / WAD < 2 →
      if 2 < a then flash_loan_fee res a = Except.ok 2
      else flash_loan_fee res a =
        Except.error (FlashSdkError.FlashError FlashProgramError.BorrowTooSmall)) ∧
    (res.config.fees.texture_fee_percentage = 0 →
      (a * res.config.fees.flash_loan_fee_wad + WAD / 2) / WAD < 1 →
      if 1 < a then flash_loan_fee res a = Except.ok 1
      else flash_loan_fee res a =
        Except.error (FlashSdkError.FlashError FlashProgramError.BorrowTooSmall)) := by
  have hWAD := WAD_pos
  have hmain := flash_loan_fee_main res a hR ha hR64 ha64
  constructor
  · intro hpct hrd
    have hm : minimum_fee_of res = 2 := by
      unfold minimum_fee_of; rw [if_pos hpct]
    have haR : a * res.config.fees.flash_loan_fee_wad < 2 * WAD := by
      have := (Nat.div_lt_iff_lt_mul hWAD).mp hrd
      omega
    have hfd : fee_decimal_raw res a = 2 * WAD := by
      unfold fee_decimal_raw
      rw [hm]
      exact Nat.max_eq_right (Nat.le_of_lt haR)
    rw [hmain, hfd]
    by_cases h2a : 2 < a
    · rw [if_pos h2a, if_neg (fun hle =>
        absurd (Nat.le_of_mul_le_mul_right hle hWAD) (by omega))]
      rw [show (2 * WAD + WAD / 2) / WAD = 2 from by decide]
    · rw [if_neg h2a, if_pos (Nat.mul_le_mul_right WAD (by omega))]
  · intro hpct hrd
    have hm : minimum_fee_of res = 1 := by
      unfold minimum_fee_of
      rw [hpct]
      simp
    have haR : a * res.config.fees.flash_loan_fee_wad < 1 * WAD := by
      have := (Nat.div_lt_iff_lt_mul hWAD).mp hrd
      omega
    have hfd : fee_decimal_raw res a = 1 * WAD := by
      unfold fee_decimal_raw
      rw [hm]
      exact Nat.max_eq_right (Nat.le_of_lt haR)
    rw [hmain, hfd]
    by_cases h1a : 1 < a
    · rw [if_pos h1a, if_neg (fun hle =>
        absurd (Nat.le_of_mul_le_mul_right hle hWAD) (by omega))]
      rw [show (1 * WAD + WAD / 2) / WAD = 1 from by decide]
    · rw [if_neg h1a, if_pos (Nat.mul_le_mul_right WAD (by omega))]

/-- C6 witness: a tiny rate (1e9 wads) rounds to 0; with texture share 10 and
amount 100 the fee is the floor 2, with texture share 0 and amount 50 the
floor 1. -/
theorem claim_C6_witness :
    flash_loan_fee (mkReserve 1000000000 10) 100 = Except.ok 2 ∧
    flash_loan_fee (mkReserve 1000000000 0) 50 = Except.ok 1 := by
  constructor
  · have h := (claim_C6 (mkReserve 1000000000 10) 100
      (by decide) (by decide) (by decide) (by decide)).1 (by decide) (by decide)
    rw [if_pos (by decide : (2 : Nat) < 100)] at h
    exact h
  · have h := (claim_C6 (mkReserve 1000000000 0) 50
      (by decide) (by decide) (by decide) (by decide)).2 rfl (by decide)
    rw [if_pos (by decide : (1 : Nat) < 50)] at h
    exact h

/-- C2: decoding the byte buffer produced by encoding any valid `Reserve`
yields the same value back, and the encoding has exactly the fixed record
length (all fields, padding included, in declared order). -/
theorem claim_C2 (r : Reserve) (h : ValidReserve r) :
    unpack_from_slice (packReserve r) = Except.ok r ∧
    (packReserve r).length = RESERVE_LEN :=
  ⟨unpack_packReserve r h, packReserve_length r⟩

/-- A reserve with pairwise distinct small field values, padding included. -/
def sampleReserve : Reserve :=
  { version := 1, head_padding := 2, last_update := 3, lending_market := 4,
    liquidity := ⟨5, 6, 7, 8⟩, lp_tokens_info := ⟨9, 10, 11⟩,
    config :=
      { fees := ⟨12, 13, 14⟩, deposit_limit := 15, fee_receiver := 16,
        future_padding1 := 17, future_padding2 := 18 },
    future_padding := 19 }

/-- C2 witness: the round trip evaluated on a concrete reserve with distinct
field and padding values. -/
theorem claim_C2_witness :
    ValidReserve sampleReserve ∧
    unpack_from_slice (packReserve sampleReserve) = Except.ok sampleReserve ∧
    (packReserve sampleReserve).length = RESERVE_LEN :=
  ⟨by decide, (claim_C2 sampleReserve (by decide)).1,
    (claim_C2 sampleReserve (by decide)).2⟩

/-- C3: decoding fails with the invalid-length error on every buffer whose
length is not exactly `RESERVE_LEN`, regardless of content, and succeeds on
every buffer of exactly that length with no semantic validation. -/
theorem claim_C3 (bs : List Nat) :
    (bs.length ≠ RESERVE_LEN →
      unpack_from_slice bs = Except.error ProgramError.InvalidAccountData) ∧
    (bs.length = RESERVE_LEN →
      ∃ r : Reserve, unpack_from_slice bs = Except.ok r) := by
  constructor
  · intro h
    unfold unpack_from_slice
    rw [if_neg h]
  · intro h
    unfold unpack_from_slice
    rw [if_pos h]
    exact ⟨_, rfl⟩

set_option maxRecDepth 4000 in
/-- C3 witness: the empty buffer is rejected with the invalid-length error,
and the all-zero 360-byte buffer (version byte 0, an uninitialized record)
decodes successfully. -/
theorem claim_C3_witness :
    unpack_from_slice [] = Except.error ProgramError.InvalidAccountData ∧
    (∃ r : Reserve, unpack_from_slice (List.replicate 360 0) = Except.ok r) :=
  ⟨(claim_C3 []).1 (by decide), (claim_C3 (List.replicate 360 0)).2 (by decide)⟩

/-- C4: `FlashLoanInstruction::pack` emits the fixed opcode byte followed by
the fixed-width little-endian payload: `FlashBorrow 1_000_000_000` packs to
the literal bytes `[7, 00, CA, 9A, 3B, 00, 00, 00, 00]`, and in general
`FlashLoan` packs as opcode 5 then 8 amount bytes then the tag byte,
`FlashBorrow` as opcode 7 then 8 amount bytes, `FlashRepay` as opcode 8 then
8 amount bytes. -/
theorem claim_C4 :
    (FlashLoanInstruction.FlashBorrow 1000000000).pack =
      [7, 0x00, 0xCA, 0x9A, 0x3B, 0x00, 0x00, 0x00, 0x00] ∧
    (∀ amount tag, (FlashLoanInstruction.FlashLoan amount tag).pack =
      5 :: (natToLe 8 amount ++ natToLe 1 tag)) ∧
    (∀ amount, (FlashLoanInstruction.FlashBorrow amount).pack =
      7 :: natToLe 8 amount) ∧
    (∀ amount, (FlashLoanInstruction.FlashRepay amount).pack =
      8 :: natToLe 8 amount) :=
  ⟨by decide, fun _ _ => rfl, fun _ => rfl, fun _ => rfl⟩

/-- C9: the builders emit exactly the documented positional account lists:
`flash_borrow` 7 references (source, destination, reserve writable; market,
derived authority, instructions sysvar, token program read-only), none a
signer; `flash_repay` 8 references (source, destination, fee receiver,
reserve writable; market, authority, sysvar, token program read-only) with
exactly the user transfer authority as signer. -/
theorem claim_C9 (fpa : Nat → Nat → Nat)
    (sysid tokid pid amt src dst rsv mkt fee auth : Nat) :
    (flash_borrow fpa sysid tokid pid amt src dst rsv mkt).accounts =
      [⟨src, false, true⟩, ⟨dst, false, true⟩, ⟨rsv, false, true⟩,
       ⟨mkt, false, false⟩, ⟨fpa mkt pid, false, false⟩,
       ⟨sysid, false, false⟩, ⟨tokid, false, false⟩] ∧
    ((flash_borrow fpa sysid tokid pid amt src dst rsv mkt).accounts.filter
      (fun m => m.is_signer)) = [] ∧
    (flash_repay sysid tokid pid amt src dst fee rsv mkt auth).accounts =
      [⟨src, false, true⟩, ⟨dst, false, true⟩, ⟨fee, false, true⟩,
       ⟨rsv, false, true⟩, ⟨mkt, false, false⟩, ⟨auth, true, false⟩,
       ⟨sysid, false, false⟩, ⟨tokid, false, false⟩] ∧
    ((flash_repay sysid tokid pid amt src dst fee rsv mkt auth).accounts.filter
      (fun m => m.is_signer)).map (fun m => m.pubkey) = [auth] :=
  ⟨rfl, rfl, rfl, rfl⟩

/-- C8 counterexample: `Reserve` encoding into a wrongly-sized output buffer
does NOT return an error: `pack_into_slice` calls `.expect` on the
`bytemuck` result and panics (modelled as `none`) whenever the output length
differs from the record length. -/
theorem claim_C8_cex :
    pack_into_slice (mkReserve 3000000000000000 0) [] = none ∧
    ([] : List Nat).length ≠ RESERVE_LEN :=
  ⟨rfl, by decide⟩

/-- C8 (amended): fee computation, decoding and instruction packing report
every failure as a typed result; `pack_into_slice`, however, panics exactly
when the output buffer length differs from `RESERVE_LEN` (instead of
returning an error), and writes the packed bytes otherwise. -/
theorem claim_C8 (r : Reserve) (out bs : List Nat) (resv : Reserve) (a : Nat) :
    (pack_into_slice r out = none ↔ out.length ≠ RESERVE_LEN) ∧
    ((∃ rr, unpack_from_slice bs = Except.ok rr) ∨
      unpack_from_slice bs = Except.error ProgramError.InvalidAccountData) ∧
    (∀ e, flash_loan_fee resv a = Except.error e →
      e = FlashSdkError.FlashError FlashProgramError.MathOverflow ∨
      e = FlashSdkError.FlashError FlashProgramError.BorrowTooSmall) := by
  refine ⟨?_, ?_, fun e he => flash_loan_fee_error_shape resv a e he⟩
  · unfold pack_into_slice
    by_cases h : out.length = RESERVE_LEN
    · rw [if_pos h]; simp [h]
    · rw [if_neg h]; simp [h]
  · unfold unpack_from_slice
    by_cases h : bs.length = RESERVE_LEN
    · rw [if_pos h]
      exact Or.inl ⟨_, rfl⟩
    · rw [if_neg h]
      exact Or.inr rfl

/-- C8 witness: the amended statement evaluated at concrete inputs: an empty
output buffer makes `pack_into_slice` panic, a wrong-length input makes
decoding return the typed invalid-length error, and a 100% rate at amount 1
makes the fee call return the typed `BorrowTooSmall` error. -/
theorem claim_C8_witness :
    (pack_into_slice (mkReserve 1 2) [] = none ↔
      ([] : List Nat).length ≠ RESERVE_LEN) ∧
    ((∃ rr, unpack_from_slice [0] = Except.ok rr) ∨
      unpack_from_slice [0] = Except.error ProgramError.InvalidAccountData) ∧
    (∀ e, flash_loan_fee (mkReserve 1000000000000000000 0) 1 = Except.error e →
      e = FlashSdkError.FlashError FlashProgramError.MathOverflow ∨
      e = FlashSdkError.FlashError FlashProgramError.BorrowTooSmall) :=
  claim_C8 (mkReserve 1 2) [] [0] (mkReserve 1000000000000000000 0) 1

end FlashLoanSdk
